import Mathlib

/-!
Shallow embedding of the ESP32 WiFi STA/AP provisioning firmware
(`src/main.c`, second revision in the file: the STA-first, AP-on-failure
state machine starting at the `wifi_state_t` definition).

Globals `current_wifi_state`, `sta_retry_count`, `ap_enabled`, `ap_netif`
become the fields of `SysState`; calls into the ESP-IDF driver and RTOS
(`esp_wifi_connect`, `vTaskDelay`, `esp_wifi_set_mode`, ...) become
constructors of `Effect`, collected in the order the C code performs them;
the NVS namespace `"WiFi"` becomes `NvsWiFi`.
-/

namespace WifiStaAp

/-- `#define STA_MAX_RETRY_ATTEMPTS 3` — maximum STA retries before enabling AP. -/
def STA_MAX_RETRY_ATTEMPTS : Int := 3

/-- `#define STA_RETRY_DELAY_MS 5000` — delay between retries (5 seconds). -/
def STA_RETRY_DELAY_MS : Nat := 5000

/-- The `wifi_state_t` enum of main.c. -/
inductive wifi_state_t where
  | WIFI_STATE_STA_ATTEMPTING
  | WIFI_STATE_STA_CONNECTED
  | WIFI_STATE_STA_FAILED_AP_ACTIVE
  | WIFI_STATE_AP_ACTIVE
deriving DecidableEq, Repr

/-- Radio modes passed to `esp_wifi_set_mode`. -/
inductive wifi_mode_t where
  | WIFI_MODE_STA
  | WIFI_MODE_APSTA
deriving DecidableEq, Repr

/-- Observable calls the firmware makes into the driver / RTOS, in program
order.  `vTaskDelay` is the FreeRTOS blocking sleep executed by the calling
task itself. -/
inductive Effect where
  | esp_wifi_connect
  | vTaskDelay (ms : Nat)
  | esp_wifi_set_mode (m : wifi_mode_t)
  | esp_wifi_set_config_ap
  | esp_wifi_set_config_sta (ssid password : String)
  | esp_netif_create_default_wifi_ap
  | esp_netif_destroy
  | esp_wifi_start
  | xEventGroupClearBits_connected
  | xEventGroupSetBits_connected
  | xEventGroupClearBits_fail
  | xEventGroupSetBits_fail
  | nvs_commit_creds (ssid password : String)
deriving DecidableEq, Repr

/-- The mutable globals of main.c that the state machine owns:
`current_wifi_state`, `sta_retry_count` (a C `int`), `ap_enabled`, and
whether `ap_netif` is non-NULL (`some ()`) or NULL (`none`). -/
structure SysState where
  current_wifi_state : wifi_state_t
  sta_retry_count : Int
  ap_enabled : Bool
  ap_netif : Option Unit
deriving DecidableEq, Repr

/-- Contents of the NVS namespace `"WiFi"`: whether the namespace exists
(`nvs_open` with `NVS_READONLY` fails when it does not), and the stored
`"ssid"` / `"password"` string keys. -/
structure NvsWiFi where
  ns_exists : Bool
  ssid : Option String
  password : Option String
deriving DecidableEq, Repr

/-- `load_sta_config`: opens NVS read-only (failure → no configuration),
reads `"ssid"` into a 32-byte buffer (`nvs_get_str` fails when the stored
string does not fit, and the function then reports no configuration), reads
`"password"` into a 64-byte buffer with the result ignored (on failure the
zero-initialised buffer, i.e. the empty string, is used). -/
def load_sta_config (nvs : NvsWiFi) : Option (String × String) :=
  if nvs.ns_exists = false then
    none
  else
    match nvs.ssid with
    | none => none
    | some s =>
        if s.length ≥ 32 then none
        else
          let p :=
            match nvs.password with
            | none => ""
            | some p => if p.length ≥ 64 then "" else p
          some (s, p)

/-- `save_sta_config_to_nvs`: opens NVS read-write and stores both keys,
then commits.  The modelled failure mode (`write_ok = false`) is the
`nvs_open` failure, on which the function logs and returns with the store
unchanged. -/
def save_sta_config_to_nvs (write_ok : Bool) (nvs : NvsWiFi) (ssid password : String) :
    NvsWiFi :=
  if write_ok then { ns_exists := true, ssid := some ssid, password := some password }
  else nvs

/-- `enable_ap_broadcasting`: a no-op when `ap_enabled` is already true;
otherwise creates the AP netif if NULL, sets `ap_enabled = true` and
`current_wifi_state = WIFI_STATE_STA_FAILED_AP_ACTIVE`, then switches the
radio to APSTA mode and applies the AP configuration. -/
def enable_ap_broadcasting (s : SysState) : SysState × List Effect :=
  if s.ap_enabled = false then
    let netifAndEffs : Option Unit × List Effect :=
      match s.ap_netif with
      | none => (some (), [Effect.esp_netif_create_default_wifi_ap])
      | some u => (some u, [])
    ({ current_wifi_state := wifi_state_t.WIFI_STATE_STA_FAILED_AP_ACTIVE,
       sta_retry_count := s.sta_retry_count,
       ap_enabled := true,
       ap_netif := netifAndEffs.1 },
     netifAndEffs.2 ++
       [Effect.esp_wifi_set_mode wifi_mode_t.WIFI_MODE_APSTA,
        Effect.esp_wifi_set_config_ap])
  else
    (s, [])

/-- `disable_ap_broadcasting`: a no-op when `ap_enabled` is already false;
otherwise clears `ap_enabled`, switches the radio back to STA-only mode and
destroys the AP netif when it is non-NULL. -/
def disable_ap_broadcasting (s : SysState) : SysState × List Effect :=
  if s.ap_enabled = true then
    let destroyEffs : List Effect :=
      match s.ap_netif with
      | some _ => [Effect.esp_netif_destroy]
      | none => []
    ({ s with ap_enabled := false, ap_netif := none },
     [Effect.esp_wifi_set_mode wifi_mode_t.WIFI_MODE_STA] ++ destroyEffs)
  else
    (s, [])

/-- `handle_sta_failure`: increments `sta_retry_count`; while still below
`STA_MAX_RETRY_ATTEMPTS` it clears the fail bit, performs a blocking
`vTaskDelay(STA_RETRY_DELAY_MS)` and calls `esp_wifi_connect` again;
otherwise it enables AP broadcasting and sets the fail bit. -/
def handle_sta_failure (s : SysState) : SysState × List Effect :=
  let s1 := { s with sta_retry_count := s.sta_retry_count + 1 }
  if s1.sta_retry_count < STA_MAX_RETRY_ATTEMPTS then
    (s1, [Effect.xEventGroupClearBits_fail,
          Effect.vTaskDelay STA_RETRY_DELAY_MS,
          Effect.esp_wifi_connect])
  else
    let r := enable_ap_broadcasting s1
    (r.1, r.2 ++ [Effect.xEventGroupSetBits_fail])

/-- The driver events dispatched to `wifi_event_handler` in main.c. -/
inductive wifi_event_t where
  | WIFI_EVENT_AP_STACONNECTED
  | WIFI_EVENT_AP_STADISCONNECTED
  | WIFI_EVENT_STA_START
  | WIFI_EVENT_STA_DISCONNECTED
  | IP_EVENT_STA_GOT_IP
deriving DecidableEq, Repr

/-- `wifi_event_handler`: the body run in the driver's event-dispatch task.
AP client join/leave events only log.  `STA_START` calls
`esp_wifi_connect`.  `STA_DISCONNECTED` while connected moves back to
attempting, clears the connected bit, blocks for 1000 ms and reconnects;
while attempting it runs `handle_sta_failure`; in the two AP states it does
nothing.  `IP_EVENT_STA_GOT_IP` disables the AP if enabled, zeroes the
retry counter, moves to connected and sets the connected bit. -/
def wifi_event_handler (s : SysState) (ev : wifi_event_t) : SysState × List Effect :=
  match ev with
  | wifi_event_t.WIFI_EVENT_AP_STACONNECTED => (s, [])
  | wifi_event_t.WIFI_EVENT_AP_STADISCONNECTED => (s, [])
  | wifi_event_t.WIFI_EVENT_STA_START => (s, [Effect.esp_wifi_connect])
  | wifi_event_t.WIFI_EVENT_STA_DISCONNECTED =>
      if s.current_wifi_state = wifi_state_t.WIFI_STATE_STA_CONNECTED then
        ({ s with current_wifi_state := wifi_state_t.WIFI_STATE_STA_ATTEMPTING },
         [Effect.xEventGroupClearBits_connected,
          Effect.vTaskDelay 1000,
          Effect.esp_wifi_connect])
      else if s.current_wifi_state = wifi_state_t.WIFI_STATE_STA_ATTEMPTING then
        handle_sta_failure s
      else
        (s, [])
  | wifi_event_t.IP_EVENT_STA_GOT_IP =>
      let r := if s.ap_enabled = true then disable_ap_broadcasting s else (s, [])
      ({ r.1 with sta_retry_count := 0,
                  current_wifi_state := wifi_state_t.WIFI_STATE_STA_CONNECTED },
       r.2 ++ [Effect.xEventGroupSetBits_connected])

/-- HTTP responses sent by the handlers: a 200 with a body, or the
`httpd_resp_send_err` 400 / 500 paths with their message. -/
inductive HttpResp where
  | ok (body : String)
  | err400 (msg : String)
  | err500 (msg : String)
deriving DecidableEq, Repr

/-- `wifi_config_post_handler` (POST `/api/wifi/config`).  `content_len` is
the request's `content_len` checked against the 256-byte receive buffer.
`ssid_field` / `password_field` are the results of the handler's
`strstr`-based parse: `none` when the `"ssid":"` / `"password":"` key is
absent, `some f` for the characters extracted up to the closing quote (a
field with no closing quote or one that does not fit its 32- / 64-byte
buffer leaves the zero-initialised buffer, i.e. becomes the empty string,
which the `f.length` guards reproduce).  On a parsed request the handler
saves to NVS, zeroes the retry counter, forces `WIFI_STATE_STA_ATTEMPTING`,
disables the AP if enabled, then reloads the configuration from NVS and —
only if that load succeeds — switches to STA mode, applies the reloaded
configuration and calls `esp_wifi_connect`. -/
def wifi_config_post_handler (content_len : Nat)
    (ssid_field password_field : Option String) (write_ok : Bool)
    (nvs : NvsWiFi) (s : SysState) :
    HttpResp × NvsWiFi × SysState × List Effect :=
  if content_len ≥ 256 then
    (HttpResp.err400 "Content too long", nvs, s, [])
  else
    match ssid_field, password_field with
    | some sf, some pf =>
        let ssid := if sf.length < 32 then sf else ""
        let password := if pf.length < 64 then pf else ""
        let nvs1 := save_sta_config_to_nvs write_ok nvs ssid password
        let saveEffs := if write_ok then [Effect.nvs_commit_creds ssid password] else []
        let s1 := { s with sta_retry_count := 0,
                           current_wifi_state := wifi_state_t.WIFI_STATE_STA_ATTEMPTING }
        let r := if s1.ap_enabled = true then disable_ap_broadcasting s1 else (s1, [])
        match load_sta_config nvs1 with
        | some lcfg =>
            (HttpResp.ok "WiFi configured successfully", nvs1, r.1,
             saveEffs ++ r.2 ++
               [Effect.esp_wifi_set_mode wifi_mode_t.WIFI_MODE_STA,
                Effect.esp_wifi_set_config_sta lcfg.1 lcfg.2,
                Effect.esp_wifi_connect])
        | none =>
            (HttpResp.err500 "Failed to load configuration", nvs1, r.1, saveEffs ++ r.2)
    | _, _ => (HttpResp.err400 "Invalid WiFi configuration", nvs, s, [])

/-- `wifi_retry_post_handler` (POST `/api/wifi/retry`).  `content_len` is
checked against the 50-byte buffer; `action_retry` is whether the body
contains `"action":"retry"`.  The handler unconditionally zeroes the retry
counter, sets `WIFI_STATE_STA_ATTEMPTING` and calls
`disable_ap_broadcasting`, and only then tests
`current_wifi_state != WIFI_STATE_STA_CONNECTED` — reading the value it
just assigned — before switching to STA mode and connecting. -/
def wifi_retry_post_handler (content_len : Nat) (action_retry : Bool) (s : SysState) :
    HttpResp × SysState × List Effect :=
  if content_len ≥ 50 then
    (HttpResp.err400 "Content too long", s, [])
  else if action_retry then
    let s1 := { s with sta_retry_count := 0,
                       current_wifi_state := wifi_state_t.WIFI_STATE_STA_ATTEMPTING }
    let r := disable_ap_broadcasting s1
    if r.1.current_wifi_state ≠ wifi_state_t.WIFI_STATE_STA_CONNECTED then
      (HttpResp.ok "Starting STA connection retry", r.1,
       r.2 ++ [Effect.esp_wifi_set_mode wifi_mode_t.WIFI_MODE_STA, Effect.esp_wifi_connect])
    else
      (HttpResp.ok "Already connected to STA", r.1, r.2)
  else
    (HttpResp.err400 "Invalid action", s, [])

/-- The JSON fields of the `/api/wifi/status` response that concern the
state machine: `connected`, `ssid`/`rssi` when `esp_wifi_sta_get_ap_info`
succeeds, the rendered `state` string, `retry_count` and `ap_enabled`. -/
structure StatusResp where
  connected : Bool
  ssid : Option String
  rssi : Option Int
  state : String
  retry_count : Int
  ap_enabled : Bool
deriving DecidableEq, Repr

/-- The `switch (current_wifi_state)` string rendering in
`wifi_status_get_handler`. -/
def wifi_state_str : wifi_state_t → String
  | wifi_state_t.WIFI_STATE_STA_ATTEMPTING => "connecting"
  | wifi_state_t.WIFI_STATE_STA_CONNECTED => "connected"
  | wifi_state_t.WIFI_STATE_STA_FAILED_AP_ACTIVE => "failed_ap_active"
  | wifi_state_t.WIFI_STATE_AP_ACTIVE => "ap_active"

/-- `wifi_status_get_handler` (GET `/api/wifi/status`): a pure read of the
state triple; `sta_ap_info` is the result of `esp_wifi_sta_get_ap_info`
(`some (ssid, rssi)` when the station is associated). -/
def wifi_status_get_handler (s : SysState) (sta_ap_info : Option (String × Int)) :
    StatusResp :=
  { connected := sta_ap_info.isSome,
    ssid := Option.map Prod.fst sta_ap_info,
    rssi := Option.map Prod.snd sta_ap_info,
    state := wifi_state_str s.current_wifi_state,
    retry_count := s.sta_retry_count,
    ap_enabled := s.ap_enabled }

/-- One record of the `ap_records` scan-result array. -/
structure wifi_ap_record_t where
  ssid : String
  rssi : Int
  authmode : Nat
  primary : Nat
deriving DecidableEq, Repr

/-- `wifi_scan_get_handler` (GET `/api/wifi/scan`), result-list part:
`esp_wifi_scan_get_ap_num` reports the driver's count, the handler clamps
it to 20 (the size of the static `ap_records[20]` array), fetches that many
records, and the JSON loop emits indices `i < ap_count && i < 20`. -/
def wifi_scan_get_handler (driver_aps : List wifi_ap_record_t) :
    List wifi_ap_record_t :=
  let scan_number := driver_aps.length
  let scan_number := if scan_number > 20 then 20 else scan_number
  driver_aps.take scan_number

/-- `app_main`, WiFi-seeding part: load the stored configuration; when it
exists, STA-only mode with that configuration and state
`WIFI_STATE_STA_ATTEMPTING` (the globals `ap_enabled = false`,
`ap_netif = NULL` keep their initialisers); when it does not, create the AP
netif, APSTA mode with the AP configuration and an empty STA configuration,
state `WIFI_STATE_AP_ACTIVE` and `ap_enabled = true`. -/
def app_main_boot (nvs : NvsWiFi) : SysState × List Effect :=
  match load_sta_config nvs with
  | some lcfg =>
      ({ current_wifi_state := wifi_state_t.WIFI_STATE_STA_ATTEMPTING,
         sta_retry_count := 0, ap_enabled := false, ap_netif := none },
       [Effect.esp_wifi_set_mode wifi_mode_t.WIFI_MODE_STA,
        Effect.esp_wifi_set_config_sta lcfg.1 lcfg.2,
        Effect.esp_wifi_start])
  | none =>
      ({ current_wifi_state := wifi_state_t.WIFI_STATE_AP_ACTIVE,
         sta_retry_count := 0, ap_enabled := true, ap_netif := some () },
       [Effect.esp_netif_create_default_wifi_ap,
        Effect.esp_wifi_set_mode wifi_mode_t.WIFI_MODE_APSTA,
        Effect.esp_wifi_set_config_ap,
        Effect.esp_wifi_set_config_sta "" "",
        Effect.esp_wifi_start])

/-- The inputs that mutate the shared state triple after boot: a driver
event, a credentials POST, or a manual-retry POST. -/
inductive SysEvent where
  | drv (ev : wifi_event_t)
  | http_config (content_len : Nat) (ssid_field password_field : Option String)
      (write_ok : Bool)
  | http_retry (content_len : Nat) (action_retry : Bool)

/-- One serialized step of the running system: dispatch the event to its
handler and keep the resulting NVS contents and state. -/
def sys_step (nvs : NvsWiFi) (s : SysState) : SysEvent → NvsWiFi × SysState
  | SysEvent.drv ev => (nvs, (wifi_event_handler s ev).1)
  | SysEvent.http_config cl sf pf wok =>
      let r := wifi_config_post_handler cl sf pf wok nvs s
      (r.2.1, r.2.2.1)
  | SysEvent.http_retry cl ar => (nvs, (wifi_retry_post_handler cl ar s).2.1)

/-- States reachable from some boot by a sequence of handled events. -/
inductive Reachable : NvsWiFi → SysState → Prop where
  | boot (nvs : NvsWiFi) : Reachable nvs (app_main_boot nvs).1
  | step {nvs : NvsWiFi} {s : SysState} (h : Reachable nvs s) (ev : SysEvent) :
      Reachable (sys_step nvs s ev).1 (sys_step nvs s ev).2

/-! State projections of the operations, used by the invariant proofs. -/

theorem enable_ap_broadcasting_state (s : SysState) :
    (enable_ap_broadcasting s).1 =
      if s.ap_enabled = false then
        { current_wifi_state := wifi_state_t.WIFI_STATE_STA_FAILED_AP_ACTIVE,
          sta_retry_count := s.sta_retry_count,
          ap_enabled := true, ap_netif := some () }
      else s := by
  unfold enable_ap_broadcasting
  cases hn : s.ap_netif <;> split_ifs <;> simp [hn]

theorem disable_ap_broadcasting_state (s : SysState) :
    (disable_ap_broadcasting s).1 =
      if s.ap_enabled = true then { s with ap_enabled := false, ap_netif := none }
      else s := by
  unfold disable_ap_broadcasting
  cases hn : s.ap_netif <;> split_ifs <;> simp [hn]

theorem handle_sta_failure_state (s : SysState) :
    (handle_sta_failure s).1 =
      if s.sta_retry_count + 1 < STA_MAX_RETRY_ATTEMPTS then
        { s with sta_retry_count := s.sta_retry_count + 1 }
      else if s.ap_enabled = false then
        { current_wifi_state := wifi_state_t.WIFI_STATE_STA_FAILED_AP_ACTIVE,
          sta_retry_count := s.sta_retry_count + 1,
          ap_enabled := true, ap_netif := some () }
      else
        { s with sta_retry_count := s.sta_retry_count + 1 } := by
  unfold handle_sta_failure
  simp only [enable_ap_broadcasting_state]
  split_ifs <;> simp_all

theorem wifi_retry_post_handler_state (cl : Nat) (ar : Bool) (s : SysState) :
    (wifi_retry_post_handler cl ar s).2.1 =
      if cl ≥ 50 then s
      else if ar then
        { current_wifi_state := wifi_state_t.WIFI_STATE_STA_ATTEMPTING,
          sta_retry_count := 0, ap_enabled := false,
          ap_netif := if s.ap_enabled = true then none else s.ap_netif }
      else s := by
  unfold wifi_retry_post_handler
  by_cases h50 : cl ≥ 50
  · simp [h50]
  · by_cases har : ar
    · by_cases hap : s.ap_enabled = true
      · simp [h50, har, hap, disable_ap_broadcasting_state]
      · simp only [Bool.not_eq_true] at hap
        simp [h50, har, hap, disable_ap_broadcasting_state]
    · simp [h50, har]

theorem wifi_config_post_handler_state (cl : Nat) (sf pf : Option String)
    (wok : Bool) (nvs : NvsWiFi) (s : SysState) :
    (wifi_config_post_handler cl sf pf wok nvs s).2.2.1 =
      if cl ≥ 256 then s
      else
        match sf, pf with
        | some _, some _ =>
            { current_wifi_state := wifi_state_t.WIFI_STATE_STA_ATTEMPTING,
              sta_retry_count := 0, ap_enabled := false,
              ap_netif := if s.ap_enabled = true then none else s.ap_netif }
        | _, _ => s := by
  unfold wifi_config_post_handler
  by_cases h256 : cl ≥ 256
  · simp [h256]
  · cases sf with
    | none => simp [h256]
    | some a =>
      cases pf with
      | none => simp [h256]
      | some b =>
        by_cases hap : s.ap_enabled = true
        · cases hload : load_sta_config (save_sta_config_to_nvs wok nvs
              (if a.length < 32 then a else "") (if b.length < 64 then b else "")) <;>
            simp [h256, hap, hload, disable_ap_broadcasting_state]
        · simp only [Bool.not_eq_true] at hap
          cases hload : load_sta_config (save_sta_config_to_nvs wok nvs
              (if a.length < 32 then a else "") (if b.length < 64 then b else "")) <;>
            simp [h256, hap, hload, disable_ap_broadcasting_state]

/-- The inductive invariant over the state triple: the retry counter is
between 0 and `STA_MAX_RETRY_ATTEMPTS`; while attempting, it is at most
`STA_MAX_RETRY_ATTEMPTS - 1` and the AP is disabled; while connected, it is
zero and the AP is disabled; and the AP-enabled flag agrees with the AP
netif handle being non-NULL. -/
def StateInv (s : SysState) : Prop :=
  0 ≤ s.sta_retry_count ∧ s.sta_retry_count ≤ STA_MAX_RETRY_ATTEMPTS ∧
  (s.current_wifi_state = wifi_state_t.WIFI_STATE_STA_ATTEMPTING →
     s.sta_retry_count ≤ STA_MAX_RETRY_ATTEMPTS - 1 ∧ s.ap_enabled = false) ∧
  (s.current_wifi_state = wifi_state_t.WIFI_STATE_STA_CONNECTED →
     s.sta_retry_count = 0 ∧ s.ap_enabled = false) ∧
  (s.ap_enabled = true ↔ s.ap_netif.isSome)

instance (s : SysState) : Decidable (StateInv s) := by
  unfold StateInv; infer_instance

theorem stateInv_boot (nvs : NvsWiFi) : StateInv (app_main_boot nvs).1 := by
  unfold app_main_boot
  cases hload : load_sta_config nvs <;>
    simp [StateInv, STA_MAX_RETRY_ATTEMPTS]

set_option maxHeartbeats 1000000 in
theorem stateInv_step (nvs : NvsWiFi) (s : SysState) (ev : SysEvent)
    (h : StateInv s) : StateInv (sys_step nvs s ev).2 := by
  obtain ⟨st, cnt, ap, netif⟩ := s
  cases ev with
  | drv e =>
      cases e with
      | WIFI_EVENT_AP_STACONNECTED => exact h
      | WIFI_EVENT_AP_STADISCONNECTED => exact h
      | WIFI_EVENT_STA_START => exact h
      | WIFI_EVENT_STA_DISCONNECTED =>
          cases st <;> cases ap <;> cases netif <;>
            (try simp_all [sys_step, wifi_event_handler, handle_sta_failure_state,
              StateInv, STA_MAX_RETRY_ATTEMPTS]) <;>
            (try split_ifs) <;> (try simp_all) <;> omega
      | IP_EVENT_STA_GOT_IP =>
          cases st <;> cases ap <;> cases netif <;>
            (try simp_all [sys_step, wifi_event_handler, disable_ap_broadcasting_state,
              StateInv, STA_MAX_RETRY_ATTEMPTS]) <;> (try split_ifs) <;>
            (try simp_all) <;> omega
  | http_config cl sf pf wok =>
      rcases sf with _ | a <;> rcases pf with _ | b <;>
        by_cases h256 : cl ≥ 256 <;>
        (try simp_all [sys_step, wifi_config_post_handler_state, StateInv,
          STA_MAX_RETRY_ATTEMPTS]) <;> (try split_ifs) <;> (try simp_all) <;> omega
  | http_retry cl ar =>
      cases ar <;> by_cases h50 : cl ≥ 50 <;>
        (try simp_all [sys_step, wifi_retry_post_handler_state, StateInv,
          STA_MAX_RETRY_ATTEMPTS]) <;> (try split_ifs) <;> (try simp_all) <;> omega

theorem stateInv_reachable {nvs : NvsWiFi} {s : SysState}
    (h : Reachable nvs s) : StateInv s := by
  induction h with
  | boot nvs => exact stateInv_boot nvs
  | step h ev ih => exact stateInv_step _ _ ev ih

/-! Concrete fixtures used by the scenario conjuncts and witnesses. -/

/-- NVS region with no `"WiFi"` namespace: a fresh device. -/
def nvs_empty : NvsWiFi := { ns_exists := false, ssid := none, password := none }

/-- NVS region holding persisted credentials for the network `"HomeNet"`. -/
def nvs_homenet : NvsWiFi :=
  { ns_exists := true, ssid := some "HomeNet", password := some "hn_secret1" }

/-- Scenario B: boot from the `"HomeNet"` credentials and deliver three
station-disconnect events with no address-acquired event in between. -/
def scenarioB_state : SysState :=
  (wifi_event_handler
    (wifi_event_handler
      (wifi_event_handler (app_main_boot nvs_homenet).1
        wifi_event_t.WIFI_EVENT_STA_DISCONNECTED).1
      wifi_event_t.WIFI_EVENT_STA_DISCONNECTED).1
    wifi_event_t.WIFI_EVENT_STA_DISCONNECTED).1

/-- Scenario E starting point: boot from `"HomeNet"` credentials and acquire
an address, so the state machine is `WIFI_STATE_STA_CONNECTED` with a zero
retry counter. -/
def scenarioE_state : SysState :=
  (wifi_event_handler (app_main_boot nvs_homenet).1
    wifi_event_t.IP_EVENT_STA_GOT_IP).1

/-- A 32-character network name, one past the last length the 32-byte
`ssid` buffer of `wifi_config_post_handler` accepts. -/
def long_ssid : String := "ABCDEFGHIJKLMNOPQRSTUVWXYZ012345"

/-- A 64-character secret, one past the last length the 64-byte `password`
buffer of `wifi_config_post_handler` accepts. -/
def long_password : String :=
  "ABCDEFGHIJKLMNOPQRSTUVWXYZabcdefghijklmnopqrstuvwxyz0123456789-_"

/-- C10: the scan operation returns at most 20 networks — the handler
clamps the driver-reported count to the size of the static `ap_records[20]`
array, so the list delivered to the caller is the first 20 records of
whatever the driver found. -/
theorem scan_results_truncated_to_20 (driver_aps : List wifi_ap_record_t) :
    wifi_scan_get_handler driver_aps = driver_aps.take 20 ∧
    (wifi_scan_get_handler driver_aps).length ≤ 20 := by
  have hmain : wifi_scan_get_handler driver_aps = driver_aps.take 20 := by
    unfold wifi_scan_get_handler
    by_cases hlen : driver_aps.length > 20
    · simp [hlen]
    · simp only [hlen, ite_false]
      rw [List.take_length, Eq.comm]
      exact List.take_of_length_le (by omega)
  refine ⟨hmain, ?_⟩
  rw [hmain, List.length_take]
  exact min_le_left _ _

/-- C9: `enable_ap_broadcasting` and `disable_ap_broadcasting` are
idempotent — the second of two consecutive calls leaves the state unchanged
and performs no driver calls, and a call made in the target sub-state is a
no-op. -/
theorem enable_disable_ap_idempotent (s : SysState) :
    (enable_ap_broadcasting (enable_ap_broadcasting s).1 =
        ((enable_ap_broadcasting s).1, []) ∧
     disable_ap_broadcasting (disable_ap_broadcasting s).1 =
        ((disable_ap_broadcasting s).1, [])) ∧
    (s.ap_enabled = true → enable_ap_broadcasting s = (s, [])) ∧
    (s.ap_enabled = false → disable_ap_broadcasting s = (s, [])) := by
  obtain ⟨st, cnt, ap, netif⟩ := s
  refine ⟨⟨?_, ?_⟩, ?_, ?_⟩ <;> cases ap <;> cases netif <;>
    simp [enable_ap_broadcasting, disable_ap_broadcasting]

/-- C9 witness: on a state with the AP already enabled, enabling is a no-op,
and on one with it disabled, disabling is a no-op. -/
theorem enable_disable_ap_idempotent_witness :
    (enable_ap_broadcasting
        { current_wifi_state := wifi_state_t.WIFI_STATE_AP_ACTIVE,
          sta_retry_count := 0, ap_enabled := true, ap_netif := some () } =
      ({ current_wifi_state := wifi_state_t.WIFI_STATE_AP_ACTIVE,
         sta_retry_count := 0, ap_enabled := true, ap_netif := some () }, [])) ∧
    (disable_ap_broadcasting
        { current_wifi_state := wifi_state_t.WIFI_STATE_STA_ATTEMPTING,
          sta_retry_count := 0, ap_enabled := false, ap_netif := none } =
      ({ current_wifi_state := wifi_state_t.WIFI_STATE_STA_ATTEMPTING,
         sta_retry_count := 0, ap_enabled := false, ap_netif := none }, [])) :=
  ⟨(enable_disable_ap_idempotent _).2.1 (by decide),
   (enable_disable_ap_idempotent _).2.2 (by decide)⟩

/-- C2: at boot, stored credentials give initial state
`WIFI_STATE_STA_ATTEMPTING` with the AP disabled and the radio set to
STA-only mode; no stored credentials give `WIFI_STATE_AP_ACTIVE` with the
AP enabled and the radio set to APSTA mode, and a status query right after
such a boot reports state `"ap_active"` with `ap_enabled = true`. -/
theorem boot_mode_selection (nvs : NvsWiFi) :
    ((load_sta_config nvs).isSome →
       (app_main_boot nvs).1.current_wifi_state =
          wifi_state_t.WIFI_STATE_STA_ATTEMPTING ∧
       (app_main_boot nvs).1.ap_enabled = false ∧
       Effect.esp_wifi_set_mode wifi_mode_t.WIFI_MODE_STA ∈ (app_main_boot nvs).2 ∧
       Effect.esp_wifi_set_mode wifi_mode_t.WIFI_MODE_APSTA ∉ (app_main_boot nvs).2) ∧
    ((load_sta_config nvs).isNone →
       (app_main_boot nvs).1.current_wifi_state = wifi_state_t.WIFI_STATE_AP_ACTIVE ∧
       (app_main_boot nvs).1.ap_enabled = true ∧
       Effect.esp_wifi_set_mode wifi_mode_t.WIFI_MODE_APSTA ∈ (app_main_boot nvs).2 ∧
       wifi_status_get_handler (app_main_boot nvs).1 none =
         { connected := false, ssid := none, rssi := none, state := "ap_active",
           retry_count := 0, ap_enabled := true }) := by
  unfold app_main_boot
  cases hload : load_sta_config nvs <;>
    simp [hload, wifi_status_get_handler, wifi_state_str]

/-- C2 witness: the credential-full branch evaluated on the `"HomeNet"`
store and the credential-less branch evaluated on the empty store. -/
theorem boot_mode_selection_witness :
    ((app_main_boot nvs_homenet).1.current_wifi_state =
        wifi_state_t.WIFI_STATE_STA_ATTEMPTING ∧
     (app_main_boot nvs_homenet).1.ap_enabled = false ∧
     Effect.esp_wifi_set_mode wifi_mode_t.WIFI_MODE_STA ∈ (app_main_boot nvs_homenet).2 ∧
     Effect.esp_wifi_set_mode wifi_mode_t.WIFI_MODE_APSTA ∉ (app_main_boot nvs_homenet).2) ∧
    ((app_main_boot nvs_empty).1.current_wifi_state = wifi_state_t.WIFI_STATE_AP_ACTIVE ∧
     (app_main_boot nvs_empty).1.ap_enabled = true ∧
     Effect.esp_wifi_set_mode wifi_mode_t.WIFI_MODE_APSTA ∈ (app_main_boot nvs_empty).2 ∧
     wifi_status_get_handler (app_main_boot nvs_empty).1 none =
       { connected := false, ssid := none, rssi := none, state := "ap_active",
         retry_count := 0, ap_enabled := true }) :=
  ⟨(boot_mode_selection nvs_homenet).1 (by decide),
   (boot_mode_selection nvs_empty).2 (by decide)⟩

/-- C4: a manual-retry request while `WIFI_STATE_STA_CONNECTED` is NOT a
no-op in the code — the handler assigns `WIFI_STATE_STA_ATTEMPTING` before
its `current_wifi_state != WIFI_STATE_STA_CONNECTED` check, so that check
always passes, the "Already connected" branch is dead, and a reconnect is
issued: the state leaves `Connected`, contradicting the claim. -/
theorem manual_retry_while_connected_reconnects :
    scenarioE_state.current_wifi_state = wifi_state_t.WIFI_STATE_STA_CONNECTED ∧
    (wifi_retry_post_handler 20 true scenarioE_state).1 =
      HttpResp.ok "Starting STA connection retry" ∧
    (wifi_retry_post_handler 20 true scenarioE_state).2.1.current_wifi_state =
      wifi_state_t.WIFI_STATE_STA_ATTEMPTING ∧
    Effect.esp_wifi_connect ∈ (wifi_retry_post_handler 20 true scenarioE_state).2.2 := by
  decide

/-- C1: a station disconnect while `WIFI_STATE_STA_ATTEMPTING` increments
the retry counter; if still below `STA_MAX_RETRY_ATTEMPTS` the state stays
attempting and the handler waits `STA_RETRY_DELAY_MS` before reissuing
`esp_wifi_connect`, otherwise the state becomes
`WIFI_STATE_STA_FAILED_AP_ACTIVE` with the fallback AP enabled; after
exactly three consecutive disconnects from a credential-full boot the state
is failed-with-AP-active with `sta_retry_count = 3` and `ap_enabled`. -/
theorem sta_disconnect_retry_then_fallback (nvs : NvsWiFi) (s : SysState)
    (hr : Reachable nvs s)
    (hs : s.current_wifi_state = wifi_state_t.WIFI_STATE_STA_ATTEMPTING) :
    (s.sta_retry_count + 1 < STA_MAX_RETRY_ATTEMPTS →
       (wifi_event_handler s wifi_event_t.WIFI_EVENT_STA_DISCONNECTED).1.current_wifi_state =
          wifi_state_t.WIFI_STATE_STA_ATTEMPTING ∧
       (wifi_event_handler s wifi_event_t.WIFI_EVENT_STA_DISCONNECTED).1.sta_retry_count =
          s.sta_retry_count + 1 ∧
       (wifi_event_handler s wifi_event_t.WIFI_EVENT_STA_DISCONNECTED).2 =
          [Effect.xEventGroupClearBits_fail, Effect.vTaskDelay STA_RETRY_DELAY_MS,
           Effect.esp_wifi_connect]) ∧
    (s.sta_retry_count + 1 ≥ STA_MAX_RETRY_ATTEMPTS →
       (wifi_event_handler s wifi_event_t.WIFI_EVENT_STA_DISCONNECTED).1.current_wifi_state =
          wifi_state_t.WIFI_STATE_STA_FAILED_AP_ACTIVE ∧
       (wifi_event_handler s wifi_event_t.WIFI_EVENT_STA_DISCONNECTED).1.sta_retry_count =
          s.sta_retry_count + 1 ∧
       (wifi_event_handler s wifi_event_t.WIFI_EVENT_STA_DISCONNECTED).1.ap_enabled = true) ∧
    (scenarioB_state.current_wifi_state = wifi_state_t.WIFI_STATE_STA_FAILED_AP_ACTIVE ∧
     scenarioB_state.sta_retry_count = 3 ∧
     scenarioB_state.ap_enabled = true) := by
  obtain ⟨h1, h2, h3, h4, h5⟩ := stateInv_reachable hr
  obtain ⟨hle, hap⟩ := h3 hs
  have hred : wifi_event_handler s wifi_event_t.WIFI_EVENT_STA_DISCONNECTED =
      handle_sta_failure s := by
    simp [wifi_event_handler, hs]
  refine ⟨fun hlt => ?_, fun hge => ?_, by decide⟩
  · rw [hred]
    simp [handle_sta_failure, hlt, hs]
  · have hnlt : ¬ (s.sta_retry_count + 1 < STA_MAX_RETRY_ATTEMPTS) := by
      simp only [STA_MAX_RETRY_ATTEMPTS] at hge ⊢
      omega
    rw [hred]
    simp [handle_sta_failure, hnlt, enable_ap_broadcasting_state, hap]

/-- C1 witness: the below-maximum branch of the theorem evaluated at the
reachable boot state of the `"HomeNet"` store. -/
theorem sta_disconnect_retry_then_fallback_witness :
    (wifi_event_handler (app_main_boot nvs_homenet).1
        wifi_event_t.WIFI_EVENT_STA_DISCONNECTED).1.sta_retry_count =
      (app_main_boot nvs_homenet).1.sta_retry_count + 1 :=
  ((sta_disconnect_retry_then_fallback nvs_homenet _ (Reachable.boot _)
      (by decide)).1 (by decide)).2.1

/-- C3: on every reachable state the retry counter lies between 0 and
`STA_MAX_RETRY_ATTEMPTS`; it is zeroed on the address-acquired event (which
enters `WIFI_STATE_STA_CONNECTED`), on an accepted credentials POST and on
a manual-retry POST; and the only event whose handling increases it is a
station disconnect received while `WIFI_STATE_STA_ATTEMPTING`. -/
theorem retry_counter_bounded_reset_increment (nvs : NvsWiFi) (s : SysState)
    (hr : Reachable nvs s) :
    (0 ≤ s.sta_retry_count ∧ s.sta_retry_count ≤ STA_MAX_RETRY_ATTEMPTS) ∧
    ((wifi_event_handler s wifi_event_t.IP_EVENT_STA_GOT_IP).1.sta_retry_count = 0 ∧
     (wifi_event_handler s wifi_event_t.IP_EVENT_STA_GOT_IP).1.current_wifi_state =
        wifi_state_t.WIFI_STATE_STA_CONNECTED) ∧
    (∀ cl : Nat, ∀ sf pf : String, ∀ wok : Bool, ¬ cl ≥ 256 →
       (wifi_config_post_handler cl (some sf) (some pf) wok nvs s).2.2.1.sta_retry_count
         = 0) ∧
    (∀ cl : Nat, ¬ cl ≥ 50 →
       (wifi_retry_post_handler cl true s).2.1.sta_retry_count = 0) ∧
    (∀ ev : SysEvent, s.sta_retry_count < (sys_step nvs s ev).2.sta_retry_count →
       ev = SysEvent.drv wifi_event_t.WIFI_EVENT_STA_DISCONNECTED ∧
       s.current_wifi_state = wifi_state_t.WIFI_STATE_STA_ATTEMPTING) := by
  have h1 := (stateInv_reachable hr).1
  refine ⟨⟨h1, (stateInv_reachable hr).2.1⟩, ⟨rfl, rfl⟩, ?_, ?_, ?_⟩
  · intro cl sf pf wok hcl
    rw [wifi_config_post_handler_state]
    simp [hcl]
  · intro cl hcl
    rw [wifi_retry_post_handler_state]
    simp [hcl]
  · intro ev hlt
    cases ev with
    | drv e =>
        cases e with
        | WIFI_EVENT_AP_STACONNECTED => exact absurd hlt (lt_irrefl _)
        | WIFI_EVENT_AP_STADISCONNECTED => exact absurd hlt (lt_irrefl _)
        | WIFI_EVENT_STA_START => exact absurd hlt (lt_irrefl _)
        | WIFI_EVENT_STA_DISCONNECTED =>
            by_cases ha : s.current_wifi_state = wifi_state_t.WIFI_STATE_STA_ATTEMPTING
            · exact ⟨rfl, ha⟩
            · exfalso
              by_cases hc : s.current_wifi_state = wifi_state_t.WIFI_STATE_STA_CONNECTED
              · simp [sys_step, wifi_event_handler, hc] at hlt
              · simp [sys_step, wifi_event_handler, hc, ha] at hlt
        | IP_EVENT_STA_GOT_IP =>
            exfalso
            have hz : (sys_step nvs s
                (SysEvent.drv wifi_event_t.IP_EVENT_STA_GOT_IP)).2.sta_retry_count = 0 :=
              rfl
            rw [hz] at hlt
            omega
    | http_config cl sf pf wok =>
        exfalso
        rw [sys_step, wifi_config_post_handler_state] at hlt
        rcases sf with _ | a <;> rcases pf with _ | b <;>
          by_cases hcl : cl ≥ 256 <;> simp [hcl] at hlt <;> omega
    | http_retry cl ar =>
        exfalso
        rw [sys_step, wifi_retry_post_handler_state] at hlt
        cases ar <;> by_cases hcl : cl ≥ 50 <;> simp [hcl] at hlt <;> omega

/-- C3 witness: the bound evaluated at the reachable boot state of the
`"HomeNet"` store. -/
theorem retry_counter_bounded_reset_increment_witness :
    0 ≤ (app_main_boot nvs_homenet).1.sta_retry_count ∧
    (app_main_boot nvs_homenet).1.sta_retry_count ≤ STA_MAX_RETRY_ATTEMPTS :=
  (retry_counter_bounded_reset_increment nvs_homenet _ (Reachable.boot _)).1

/-- C8: on every reachable state the AP netif handle is non-NULL exactly
when `ap_enabled` is true, and the equivalence is preserved by boot
seeding, by `enable_ap_broadcasting` / `disable_ap_broadcasting`, and by
every handled event. -/
theorem fallback_netif_iff_enabled (nvs : NvsWiFi) (s : SysState)
    (hr : Reachable nvs s) :
    (s.ap_enabled = true ↔ s.ap_netif.isSome) ∧
    (∀ nvs2 : NvsWiFi, (app_main_boot nvs2).1.ap_enabled = true ↔
        (app_main_boot nvs2).1.ap_netif.isSome) ∧
    (∀ t : SysState, (t.ap_enabled = true ↔ t.ap_netif.isSome) →
       (((enable_ap_broadcasting t).1.ap_enabled = true ↔
            (enable_ap_broadcasting t).1.ap_netif.isSome) ∧
        ((disable_ap_broadcasting t).1.ap_enabled = true ↔
            (disable_ap_broadcasting t).1.ap_netif.isSome))) ∧
    (∀ t : SysState, ∀ ev : SysEvent, (t.ap_enabled = true ↔ t.ap_netif.isSome) →
       ((sys_step nvs t ev).2.ap_enabled = true ↔
          (sys_step nvs t ev).2.ap_netif.isSome)) := by
  refine ⟨(stateInv_reachable hr).2.2.2.2, ?_, ?_, ?_⟩
  · intro nvs2
    unfold app_main_boot
    cases hload : load_sta_config nvs2 <;> simp
  · intro t hiff
    obtain ⟨st, cnt, ap, netif⟩ := t
    cases ap <;> cases netif <;>
      simp_all [enable_ap_broadcasting_state, disable_ap_broadcasting_state]
  · intro t ev hiff
    obtain ⟨st, cnt, ap, netif⟩ := t
    cases ev with
    | drv e =>
        cases e <;> cases st <;> cases ap <;> cases netif <;>
          (try simp_all [sys_step, wifi_event_handler, handle_sta_failure_state,
            disable_ap_broadcasting_state, STA_MAX_RETRY_ATTEMPTS]) <;>
          (try split_ifs) <;> simp_all
    | http_config cl sf pf wok =>
        rcases sf with _ | a <;> rcases pf with _ | b <;>
          by_cases h256 : cl ≥ 256 <;> cases ap <;> cases netif <;>
          (try simp_all [sys_step, wifi_config_post_handler_state]) <;>
          (try split_ifs) <;> (try simp_all) <;> omega
    | http_retry cl ar =>
        cases ar <;> by_cases h50 : cl ≥ 50 <;> cases ap <;> cases netif <;>
          (try simp_all [sys_step, wifi_retry_post_handler_state]) <;>
          (try split_ifs) <;> (try simp_all) <;> omega

/-- C8 witness: the equivalence evaluated at the reachable boot state of
the empty store, where the AP is enabled and its netif exists. -/
theorem fallback_netif_iff_enabled_witness :
    (app_main_boot nvs_empty).1.ap_enabled = true ↔
      (app_main_boot nvs_empty).1.ap_netif.isSome :=
  (fallback_netif_iff_enabled nvs_empty _ (Reachable.boot _)).1

/-- C5 counterexample: with a failing store (`write_ok = false`) and no
previously persisted credentials, an accepted submit-credentials request
does NOT proceed to an in-memory connect attempt — the handler reloads the
configuration from NVS, the reload fails, it answers 500 and never calls
`esp_wifi_connect`, refuting the claim that the connect attempt with the
submitted credentials proceeds even when persistence failed. -/
theorem storage_failure_aborts_connect :
    (wifi_config_post_handler 60 (some "Office") (some "secret123") false nvs_empty
        (app_main_boot nvs_empty).1).1 = HttpResp.err500 "Failed to load configuration" ∧
    Effect.esp_wifi_connect ∉
      (wifi_config_post_handler 60 (some "Office") (some "secret123") false nvs_empty
        (app_main_boot nvs_empty).1).2.2.2 ∧
    Effect.esp_wifi_set_config_sta "Office" "secret123" ∉
      (wifi_config_post_handler 60 (some "Office") (some "secret123") false nvs_empty
        (app_main_boot nvs_empty).1).2.2.2 := by
  decide

/-- C5 amended: an accepted request saves the (length-clamped) credentials
to NVS before any radio-driver call — the commit is the first effect — but
the connect attempt then uses the credentials RELOADED from NVS: when that
reload yields a configuration the handler applies it and connects, and when
it yields nothing (persistence failed on a device with no prior record) the
handler answers 500 and no connect is attempted. -/
theorem credentials_saved_before_driver_handoff (cl : Nat) (sf pf : String)
    (wok : Bool) (nvs : NvsWiFi) (s : SysState) (hcl : ¬ cl ≥ 256) :
    (wok = true →
       (wifi_config_post_handler cl (some sf) (some pf) wok nvs s).2.2.2.head? =
         some (Effect.nvs_commit_creds (if sf.length < 32 then sf else "")
                 (if pf.length < 64 then pf else ""))) ∧
    (∀ lc : String × String,
       load_sta_config (save_sta_config_to_nvs wok nvs
           (if sf.length < 32 then sf else "") (if pf.length < 64 then pf else ""))
         = some lc →
       Effect.esp_wifi_connect ∈
          (wifi_config_post_handler cl (some sf) (some pf) wok nvs s).2.2.2 ∧
       Effect.esp_wifi_set_config_sta lc.1 lc.2 ∈
          (wifi_config_post_handler cl (some sf) (some pf) wok nvs s).2.2.2) ∧
    (load_sta_config (save_sta_config_to_nvs wok nvs
           (if sf.length < 32 then sf else "") (if pf.length < 64 then pf else ""))
         = none →
       (wifi_config_post_handler cl (some sf) (some pf) wok nvs s).1 =
          HttpResp.err500 "Failed to load configuration" ∧
       Effect.esp_wifi_connect ∉
          (wifi_config_post_handler cl (some sf) (some pf) wok nvs s).2.2.2) := by
  refine ⟨fun hwok => ?_, fun lc hlc => ?_, fun hnone => ?_⟩
  · subst hwok
    cases hload : load_sta_config (save_sta_config_to_nvs true nvs
        (if sf.length < 32 then sf else "") (if pf.length < 64 then pf else "")) <;>
      by_cases hap : s.ap_enabled = true <;>
      simp [wifi_config_post_handler, hcl, hload, hap]
  · by_cases hap : s.ap_enabled = true <;>
      simp [wifi_config_post_handler, hcl, hlc, hap]
  · by_cases hap : s.ap_enabled = true <;> cases hnet : s.ap_netif <;> cases wok <;>
      simp [wifi_config_post_handler, disable_ap_broadcasting, hcl, hnone, hap, hnet]

/-- C5 amended witness: on a healthy store the commit of the submitted
credentials is the first effect of the request, ahead of every driver
call. -/
theorem credentials_saved_before_driver_handoff_witness :
    (wifi_config_post_handler 60 (some "Office") (some "secret123") true nvs_empty
        (app_main_boot nvs_empty).1).2.2.2.head? =
      some (Effect.nvs_commit_creds
        (if "Office".length < 32 then "Office" else "")
        (if "secret123".length < 64 then "secret123" else "")) :=
  (credentials_saved_before_driver_handoff 60 "Office" "secret123" true
      nvs_empty (app_main_boot nvs_empty).1 (by decide)).1 rfl

/-- C6 counterexample: handling a station disconnect at the reachable boot
state of the `"HomeNet"` store executes the blocking
`vTaskDelay(STA_RETRY_DELAY_MS)` inside the driver's event-dispatch
context, refuting the claim that no blocking sleep happens there. -/
theorem retry_delay_blocks_event_task :
    Effect.vTaskDelay STA_RETRY_DELAY_MS ∈
      (wifi_event_handler (app_main_boot nvs_homenet).1
        wifi_event_t.WIFI_EVENT_STA_DISCONNECTED).2 := by
  decide

/-- C6 amended: the delay between reconnect attempts is a blocking
`vTaskDelay` performed by the event handler itself before it reissues
`esp_wifi_connect` — `STA_RETRY_DELAY_MS` in the attempting-with-retries-
left case and 1000 ms after losing an established connection; there is no
scheduled cancellable retry task. -/
theorem retry_delay_is_blocking_sleep (s : SysState)
    (ha : s.current_wifi_state = wifi_state_t.WIFI_STATE_STA_ATTEMPTING)
    (hlt : s.sta_retry_count + 1 < STA_MAX_RETRY_ATTEMPTS) :
    (wifi_event_handler s wifi_event_t.WIFI_EVENT_STA_DISCONNECTED).2 =
      [Effect.xEventGroupClearBits_fail, Effect.vTaskDelay STA_RETRY_DELAY_MS,
       Effect.esp_wifi_connect] ∧
    (∀ t : SysState, t.current_wifi_state = wifi_state_t.WIFI_STATE_STA_CONNECTED →
       (wifi_event_handler t wifi_event_t.WIFI_EVENT_STA_DISCONNECTED).2 =
         [Effect.xEventGroupClearBits_connected, Effect.vTaskDelay 1000,
          Effect.esp_wifi_connect]) := by
  constructor
  · simp [wifi_event_handler, ha, handle_sta_failure, hlt]
  · intro t ht
    simp [wifi_event_handler, ht]

/-- C6 amended witness: the blocking-delay trace evaluated at the reachable
boot state of the `"HomeNet"` store. -/
theorem retry_delay_is_blocking_sleep_witness :
    (wifi_event_handler (app_main_boot nvs_homenet).1
        wifi_event_t.WIFI_EVENT_STA_DISCONNECTED).2 =
      [Effect.xEventGroupClearBits_fail, Effect.vTaskDelay STA_RETRY_DELAY_MS,
       Effect.esp_wifi_connect] :=
  (retry_delay_is_blocking_sleep _ (by decide) (by decide)).1

/-- C7 counterexample: neither overlong credential field is rejected.  A
request whose network name is 32 characters long is accepted — the parse
leaves the zero-initialised buffer, the handler persists an empty name,
answers success and moves the state machine to
`WIFI_STATE_STA_ATTEMPTING`; likewise a request whose secret is 64
characters long is accepted with an empty secret persisted — refuting
rejection, non-persistence and state-preservation for both fields. -/
theorem overlong_credentials_accepted :
    (long_ssid.length ≥ 32 ∧
     (wifi_config_post_handler 80 (some long_ssid) (some "pw123456") true nvs_empty
         (app_main_boot nvs_empty).1).1 = HttpResp.ok "WiFi configured successfully" ∧
     (wifi_config_post_handler 80 (some long_ssid) (some "pw123456") true nvs_empty
         (app_main_boot nvs_empty).1).2.1 =
       { ns_exists := true, ssid := some "", password := some "pw123456" } ∧
     (wifi_config_post_handler 80 (some long_ssid) (some "pw123456") true nvs_empty
         (app_main_boot nvs_empty).1).2.2.1.current_wifi_state =
       wifi_state_t.WIFI_STATE_STA_ATTEMPTING) ∧
    (long_password.length ≥ 64 ∧
     (wifi_config_post_handler 120 (some "Office") (some long_password) true nvs_empty
         (app_main_boot nvs_empty).1).1 = HttpResp.ok "WiFi configured successfully" ∧
     (wifi_config_post_handler 120 (some "Office") (some long_password) true nvs_empty
         (app_main_boot nvs_empty).1).2.1 =
       { ns_exists := true, ssid := some "Office", password := some "" } ∧
     (wifi_config_post_handler 120 (some "Office") (some long_password) true nvs_empty
         (app_main_boot nvs_empty).1).2.2.1.current_wifi_state =
       wifi_state_t.WIFI_STATE_STA_ATTEMPTING) := by
  decide

/-- C7 amended: an overlong network name (32 bytes or more) or secret (64
bytes or more) is silently replaced by the empty string — the request is
still accepted, the emptied field is persisted and the state machine moves
to attempting; the only length rejection is of a whole request body that
overflows the 256-byte receive buffer, which leaves storage and state
untouched. -/
theorem overlong_fields_emptied_not_rejected (cl : Nat) (sf pf : String)
    (nvs : NvsWiFi) (s : SysState) (hcl : ¬ cl ≥ 256) :
    (sf.length ≥ 32 →
       (wifi_config_post_handler cl (some sf) (some pf) true nvs s).2.1.ssid = some "" ∧
       (wifi_config_post_handler cl (some sf) (some pf) true nvs s).1 =
          HttpResp.ok "WiFi configured successfully" ∧
       (wifi_config_post_handler cl (some sf) (some pf)
          true nvs s).2.2.1.current_wifi_state =
          wifi_state_t.WIFI_STATE_STA_ATTEMPTING) ∧
    (pf.length ≥ 64 →
       (wifi_config_post_handler cl (some sf) (some pf) true nvs s).2.1.password =
          some "" ∧
       (wifi_config_post_handler cl (some sf) (some pf) true nvs s).1 =
          HttpResp.ok "WiFi configured successfully" ∧
       (wifi_config_post_handler cl (some sf) (some pf)
          true nvs s).2.2.1.current_wifi_state =
          wifi_state_t.WIFI_STATE_STA_ATTEMPTING) ∧
    (∀ cl2 : Nat, ∀ sf2 pf2 : Option String, ∀ wok2 : Bool, cl2 ≥ 256 →
       wifi_config_post_handler cl2 sf2 pf2 wok2 nvs s =
         (HttpResp.err400 "Content too long", nvs, s, [])) := by
  refine ⟨fun hsf => ?_, fun hpf => ?_, ?_⟩
  · have hnsf : ¬ (sf.length < 32) := by omega
    refine ⟨?_, ?_, ?_⟩
    · by_cases hap : s.ap_enabled = true <;>
        simp [wifi_config_post_handler, save_sta_config_to_nvs, load_sta_config,
          hcl, hnsf, hap]
    · by_cases hap : s.ap_enabled = true <;>
        simp [wifi_config_post_handler, save_sta_config_to_nvs, load_sta_config,
          hcl, hnsf, hap]
    · rw [wifi_config_post_handler_state]
      simp [hcl]
  · have hnpf : ¬ (pf.length < 64) := by omega
    refine ⟨?_, ?_, ?_⟩
    · by_cases hsf32 : sf.length < 32
      · have h32 : ¬ (sf.length ≥ 32) := by omega
        by_cases hap : s.ap_enabled = true <;>
          simp [wifi_config_post_handler, save_sta_config_to_nvs, load_sta_config,
            hcl, hnpf, hsf32, h32, hap]
      · have h32 : sf.length ≥ 32 := by omega
        by_cases hap : s.ap_enabled = true <;>
          simp [wifi_config_post_handler, save_sta_config_to_nvs, load_sta_config,
            hcl, hnpf, hsf32, h32, hap]
    · by_cases hsf32 : sf.length < 32
      · have h32 : ¬ (sf.length ≥ 32) := by omega
        by_cases hap : s.ap_enabled = true <;>
          simp [wifi_config_post_handler, save_sta_config_to_nvs, load_sta_config,
            hcl, hnpf, hsf32, h32, hap]
      · have h32 : sf.length ≥ 32 := by omega
        by_cases hap : s.ap_enabled = true <;>
          simp [wifi_config_post_handler, save_sta_config_to_nvs, load_sta_config,
            hcl, hnpf, hsf32, h32, hap]
    · rw [wifi_config_post_handler_state]
      simp [hcl]
  · intro cl2 sf2 pf2 wok2 h256
    simp [wifi_config_post_handler, h256]

/-- C7 amended witness: the persisted name after submitting a 32-character
network name is the empty string, and the persisted secret after submitting
a 64-character secret is the empty string. -/
theorem overlong_fields_emptied_not_rejected_witness :
    (wifi_config_post_handler 80 (some long_ssid) (some "pw99") true nvs_empty
        (app_main_boot nvs_empty).1).2.1.ssid = some "" ∧
    (wifi_config_post_handler 120 (some "Office") (some long_password) true nvs_empty
        (app_main_boot nvs_empty).1).2.1.password = some "" :=
  ⟨((overlong_fields_emptied_not_rejected 80 long_ssid "pw99" nvs_empty
      (app_main_boot nvs_empty).1 (by decide)).1 (by decide)).1,
   ((overlong_fields_emptied_not_rejected 120 "Office" long_password nvs_empty
      (app_main_boot nvs_empty).1 (by decide)).2.1 (by decide)).1⟩

end WifiStaAp
